import Mathlib

/-
Verification of the NMS service (SNMP polling, alarm engine, orchestrator,
repositories) against its natural-language specification.  Python sources are
shallowly embedded: dynamic values become the `PyVal` sum type, dictionaries
become association lists, machine behaviour (dataclass / ORM constructor
keyword checks, exceptions) is made explicit.
-/

namespace NMS

/-- Model of a dynamic Python value as produced by `_parse_snmp_value`
(snmp/session.py): None, bool, int, float (as a rational) or str. -/
inductive PyVal where
  | pyNone
  | pyBool (b : Bool)
  | pyIntV (n : Int)
  | pyRat (q : ℚ)
  | pyStr (s : String)
deriving DecidableEq, Repr

/-- Python `str(val)`.  Exact for None, bool, int and str values.  Float
stringification is approximated (a float with integral value prints as
"n.0", otherwise as a fraction); no embedded code path under verification
stringifies a non-integral float. -/
def pyStrOf : PyVal → String
  | .pyNone => "None"
  | .pyBool b => if b then "True" else "False"
  | .pyIntV n => toString n
  | .pyRat q => toString q.num ++ (if q.den = 1 then ".0" else "/" ++ toString q.den)
  | .pyStr s => s

/-- Python truthiness of a value, used for `dict.get(key, False)` reads. -/
def pyTruthy : PyVal → Bool
  | .pyNone => false
  | .pyBool b => b
  | .pyIntV n => n != 0
  | .pyRat q => q != 0
  | .pyStr s => s ≠ ""

/-- Drop leading whitespace characters. -/
def stripLeading : List Char → List Char
  | [] => []
  | c :: rest => if c.isWhitespace then stripLeading rest else c :: rest

/-- Python `str.strip()`: remove leading and trailing whitespace (modelled on
ASCII whitespace via `Char.isWhitespace`). -/
def pyStrip (s : String) : String :=
  ⟨(stripLeading (stripLeading s.data).reverse).reverse⟩

/-- Numeric value of a list of decimal digit characters. -/
def digitsToNat (cs : List Char) : Nat :=
  cs.foldl (fun a c => a * 10 + (c.toNat - 48)) 0

/-- Every character is a decimal digit. -/
def allDigits (cs : List Char) : Bool := cs.all Char.isDigit

/-- Split a character list at the first character satisfying `p`; the second
component is `none` when no such character occurs. -/
def splitAtChar (p : Char → Bool) : List Char → List Char × Option (List Char)
  | [] => ([], none)
  | c :: rest =>
    if p c then ([], some rest)
    else
      let (a, b) := splitAtChar p rest
      (c :: a, b)

/-- Optionally signed digit run (the exponent part of a Python float literal). -/
def parseSignedDigits (cs : List Char) : Option Int :=
  match cs with
  | '+' :: rest =>
    if rest ≠ [] ∧ allDigits rest then some (Int.ofNat (digitsToNat rest)) else none
  | '-' :: rest =>
    if rest ≠ [] ∧ allDigits rest then some (-(Int.ofNat (digitsToNat rest))) else none
  | _ =>
    if cs ≠ [] ∧ allDigits cs then some (Int.ofNat (digitsToNat cs)) else none

/-- Mantissa of a Python float literal: optional sign, digits with at most one
decimal point, at least one digit overall. -/
def parseMantissa (cs : List Char) : Option ℚ :=
  let sb : ℚ × List Char :=
    match cs with
    | '+' :: rest => (1, rest)
    | '-' :: rest => (-1, rest)
    | _ => (1, cs)
  let (ip, fpo) := splitAtChar (fun c => c = '.') sb.2
  match fpo with
  | none =>
    if ip ≠ [] ∧ allDigits ip then some (sb.1 * (digitsToNat ip : ℚ)) else none
  | some fp =>
    if (ip ≠ [] ∨ fp ≠ []) ∧ allDigits ip ∧ allDigits fp then
      some (sb.1 * ((digitsToNat ip : ℚ) + (digitsToNat fp : ℚ) / ((10 : ℚ) ^ fp.length)))
    else none

/-- Model of Python `float(s)` on an already-stripped string: the standard
decimal grammar with an optional exponent.  (Digit-group underscores and the
words inf/nan are not modelled; the letter filter in the safe helpers rejects
the latter before `float` is reached.) -/
def parsePyFloat (s : String) : Option ℚ :=
  let (mant, expo) := splitAtChar (fun c => c = 'e' ∨ c = 'E') s.data
  match expo with
  | none => parseMantissa mant
  | some ex =>
    match parseMantissa mant, parseSignedDigits ex with
    | some m, some e => some (m * (10 : ℚ) ^ e)
    | _, _ => none

/-- Python `int(float)`: truncation toward zero. -/
def ratTrunc (q : ℚ) : Int := if 0 ≤ q then q.floor else -((-q).floor)

/-- The letter filter of `safe_int`/`safe_float` (snmp/poller.py lines 46 and
56): `any(c.isalpha() for c in val_str if c not in '.-')`. -/
def pyHasBadAlpha (s : String) : Bool :=
  s.data.any (fun c => if c = '.' ∨ c = '-' then false else c.isAlpha)

/-- Common body of `safe_int`/`safe_float` (snmp/poller.py lines 41-60) up to
the final coercion: `none` means "fall back to the caller's default", either
because the value is None, stringifies/strips to empty, contains a letter, or
fails `float()` parsing (the `except (ValueError, TypeError)` branch). -/
def safe_float_checked (v : Option PyVal) : Option ℚ :=
  match v with
  | none => none
  | some pv =>
    let s := pyStrip (pyStrOf pv)
    if s = "" then none
    else if pyHasBadAlpha s then none
    else parsePyFloat s

/-- `safe_float(val, default)` with a numeric default (snmp/poller.py 52-60). -/
def safe_float (v : Option PyVal) (dflt : ℚ) : ℚ := (safe_float_checked v).getD dflt

/-- `safe_float(val, None)` as used by the cisco health path. -/
def safe_float_opt (v : Option PyVal) : Option ℚ := safe_float_checked v

/-- Coercion part of `safe_int`: `int(float(val_str))`. -/
def safe_int_checked (v : Option PyVal) : Option Int := (safe_float_checked v).map ratTrunc

/-- `safe_int(val, default)` with a numeric default (snmp/poller.py 41-50). -/
def safe_int (v : Option PyVal) (dflt : Int) : Int := (safe_int_checked v).getD dflt

/-- `safe_int(val, None)` as used by the cisco memory path. -/
def safe_int_opt (v : Option PyVal) : Option Int := safe_int_checked v

/-- Modelled from the spec sentence behind claim C9, for comparison with the
source function: helpers "reject any value containing letters outside .-eE",
treat None/empty as the default, and otherwise coerce via float truncation. -/
def claim_safe_int (v : Option PyVal) (dflt : Int) : Int :=
  match v with
  | none => dflt
  | some pv =>
    let s := pyStrip (pyStrOf pv)
    if s = "" then dflt
    else if s.data.any (fun c => if c = '.' ∨ c = '-' ∨ c = 'e' ∨ c = 'E' then false else c.isAlpha)
    then dflt
    else
      match parsePyFloat s with
      | some q => ratTrunc q
      | none => dflt

end NMS

open NMS

/-- Claim C9, counterexample: on the string "1e5" — whose only letter, e, is
inside the claimed allowed set .-eE — the claim predicts coercion to 100000,
but the source helper rejects any alphabetic character (its filter set is
only '.-'), so `safe_int` returns the default 0. -/
theorem safe_int_scientific_counterexample :
    safe_int (some (PyVal.pyStr "1e5")) 0 = 0 ∧
    claim_safe_int (some (PyVal.pyStr "1e5")) 0 = 100000 ∧
    safe_int (some (PyVal.pyStr "1e5")) 0 ≠ claim_safe_int (some (PyVal.pyStr "1e5")) 0 := by
  have h0 : claim_safe_int (some (PyVal.pyStr "1e5")) 0 =
      ratTrunc ((1 : ℚ) * ((1 : ℕ) : ℚ) * (10 : ℚ) ^ (Int.ofNat 5)) := rfl
  have h1 : ((1 : ℚ) * ((1 : ℕ) : ℚ) * (10 : ℚ) ^ (Int.ofNat 5)) = 100000 := by
    norm_num
  have h2 : claim_safe_int (some (PyVal.pyStr "1e5")) 0 = 100000 := by
    rw [h0, h1]; decide
  refine ⟨by decide, h2, by rw [h2]; decide⟩

/-- In a string, any alphabetic character trips the safe helpers' letter
filter, because the filter's exclusion set '.-' contains no letters. -/
lemma pyHasBadAlpha_of_mem_alpha {s : String} {c : Char}
    (hc : c ∈ s.data) (ha : c.isAlpha = true) : pyHasBadAlpha s = true := by
  unfold pyHasBadAlpha
  rw [List.any_eq_true]
  refine ⟨c, hc, ?_⟩
  have h1 : ¬(c = '.' ∨ c = '-') := by
    rintro (h | h) <;> subst h <;> simp at ha
  simp [h1, ha]

/-- Claim C9 (amended): `safe_int`/`safe_float` return the supplied default
when the value is None, when it stringifies and strips to the empty string,
when the stripped string contains ANY alphabetic character (the code's filter
set is '.-', which contains no letters, so e and E are also rejected and
scientific-notation strings fall back to the default), and when `float()`
parsing fails; otherwise they coerce to a float, `safe_int` truncating
toward zero. -/
theorem safe_conversion_behaviour (pv : PyVal) (d : Int) (df : ℚ) (q : ℚ) :
    (safe_int none d = d ∧ safe_float none df = df) ∧
    (pyStrip (pyStrOf pv) = "" → safe_int (some pv) d = d ∧ safe_float (some pv) df = df) ∧
    ((∃ c ∈ (pyStrip (pyStrOf pv)).data, c.isAlpha = true) →
      safe_int (some pv) d = d ∧ safe_float (some pv) df = df) ∧
    (pyStrip (pyStrOf pv) ≠ "" → pyHasBadAlpha (pyStrip (pyStrOf pv)) = false →
      parsePyFloat (pyStrip (pyStrOf pv)) = some q →
      safe_int (some pv) d = ratTrunc q ∧ safe_float (some pv) df = q) ∧
    (pyStrip (pyStrOf pv) ≠ "" → pyHasBadAlpha (pyStrip (pyStrOf pv)) = false →
      parsePyFloat (pyStrip (pyStrOf pv)) = none →
      safe_int (some pv) d = d ∧ safe_float (some pv) df = df) := by
  refine ⟨⟨rfl, rfl⟩, ?_, ?_, ?_, ?_⟩
  · intro hs
    simp [safe_int, safe_int_checked, safe_float, safe_float_checked, hs]
  · rintro ⟨c, hc, ha⟩
    by_cases hs : pyStrip (pyStrOf pv) = ""
    · simp [safe_int, safe_int_checked, safe_float, safe_float_checked, hs]
    · have hb := pyHasBadAlpha_of_mem_alpha hc ha
      simp [safe_int, safe_int_checked, safe_float, safe_float_checked, hs, hb]
  · intro hs hb hp
    simp [safe_int, safe_int_checked, safe_float, safe_float_checked, hs, hb, hp]
  · intro hs hb hp
    simp [safe_int, safe_int_checked, safe_float, safe_float_checked, hs, hb, hp]

/-- Witness for the amended C9 theorem at concrete inputs. -/
theorem safe_conversion_behaviour_witness :
    safe_int (some (PyVal.pyStr " 42x ")) 7 = 7 ∧ safe_float none (5 : ℚ) = 5 := by
  have h := safe_conversion_behaviour (PyVal.pyStr " 42x ") 7 5 0
  exact ⟨(h.2.2.1 ⟨'x', by decide, by decide⟩).1, h.1.2⟩

namespace NMS

/-- Alarm severity levels (core/models.py `AlarmSeverity`). -/
inductive AlarmSeverity where
  | info
  | warning
  | critical
deriving DecidableEq, Repr

/-- Alarm classification types (core/models.py `AlarmType`). -/
inductive AlarmType where
  | port_down
  | device_unreachable
  | cpu_high
  | memory_high
  | temperature_high
  | fan_failure
  | power_supply_failure
  | device_reachable
  | port_up
deriving DecidableEq, Repr

/-- An alarm event (core/models.py `Alarm`), restricted to the fields the
claims quantify over: raising device, optional device name, type and
severity.  The free-text message and the metadata map are not modelled. -/
structure Alarm where
  device_id : Int
  device_name : Option String
  type : AlarmType
  severity : AlarmSeverity
deriving DecidableEq, Repr

/-- Python `str.lower()` over the character list. -/
def pyLower (s : String) : String := ⟨s.data.map Char.toLower⟩

/-- Network interface metrics (core/models.py `InterfaceMetric`).  These are
exactly the fields of the dataclass: it has NO in_errors, out_errors or mtu
fields (timestamps are abstracted to naturals). -/
structure InterfaceMetric where
  device_id : Int
  interface_index : Int
  interface_name : String
  description : String
  admin_status : String
  oper_status : String
  speed : Int
  in_octets : Int
  out_octets : Int
  timestamp : Nat
deriving DecidableEq, Repr

/-- `InterfaceMetric.is_port_down` (core/models.py 62-64): admin=up ∧ oper=down,
case-insensitive. -/
def InterfaceMetric.is_port_down (m : InterfaceMetric) : Bool :=
  decide (pyLower m.admin_status = "up") && decide (pyLower m.oper_status = "down")

/-- Device health metrics (core/models.py `DeviceHealthMetric`). -/
structure DeviceHealthMetric where
  device_id : Int
  device_name : String
  uptime_seconds : Int
  cpu_usage : Option ℚ
  memory_usage : Option ℚ
  temperature : Option ℚ
  timestamp : Nat
deriving DecidableEq, Repr

/-- A state dictionary: Python `Dict[str, Any]` as an association list. -/
abbrev PyDict := List (String × PyVal)

/-- First-match association lookup, Python `dict.__getitem__`-style. -/
def dictLookup : PyDict → String → Option PyVal
  | [], _ => none
  | (k', v) :: rest, k => if k' = k then some v else dictLookup rest k

/-- Python `dict.get(key, False)` read in boolean position. -/
def dictGetBool (d : PyDict) (k : String) : Bool :=
  match dictLookup d k with
  | some v => pyTruthy v
  | none => false

/-- Previous metric state slot (core/models.py `PreviousState`). -/
structure PreviousState where
  device_id : Int
  metric_type : String
  metric_key : String
  state : PyDict
  timestamp : Nat
deriving DecidableEq, Repr

/-- Key of the engine's state map: `(device_id, metric_key)`. -/
abbrev StateKey := Int × String

/-- Lookup in the engine's state map. -/
def lookupState : List (StateKey × PreviousState) → StateKey → Option PreviousState
  | [], _ => none
  | (k', v) :: rest, k => if k' = k then some v else lookupState rest k

/-- Python dict assignment: replace the first binding for the key, otherwise
append a fresh one. -/
def setState :
    List (StateKey × PreviousState) → StateKey → PreviousState →
      List (StateKey × PreviousState)
  | [], k, v => [(k, v)]
  | (k', v') :: rest, k, v =>
    if k' = k then (k, v) :: rest else (k', v') :: setState rest k v

/-- The alarm engine's mutable state (alarm/__init__.py `AlarmEngine`):
the per-(device, metric-key) `previous_state` map. -/
structure AlarmEngine where
  previous_state : List (StateKey × PreviousState)
deriving DecidableEq, Repr

/-- A freshly constructed engine: empty state map. -/
def AlarmEngine.empty : AlarmEngine := ⟨[]⟩

/-- `self.previous_state.get(state_key)`. -/
def stateGet (eng : AlarmEngine) (k : StateKey) : Option PreviousState :=
  lookupState eng.previous_state k

/-- The combined read `previous is not None and previous.state.get(flag, False)`
used throughout the engine. -/
def storedFlag (eng : AlarmEngine) (k : StateKey) (flag : String) : Bool :=
  match stateGet eng k with
  | some prev => dictGetBool prev.state flag
  | none => false

/-- Alarm thresholds (core/config.py `AlarmConfig`, defaults 80.0). -/
structure AlarmConfig where
  cpu_threshold : ℚ := 80
  memory_threshold : ℚ := 80
  temperature_threshold : ℚ := 80
deriving DecidableEq, Repr

/-- The guard `value is not None and value >= threshold`. -/
def optGeb (v : Option ℚ) (thr : ℚ) : Bool :=
  match v with
  | some x => decide (thr ≤ x)
  | none => false

/-- Embed an optional rational as a Python value. -/
def optRatToPy : Option ℚ → PyVal
  | some q => .pyRat q
  | none => .pyNone

/-- State key for an interface: `(device_id, f"iface_{index}")`. -/
def ifaceKey (m : InterfaceMetric) : StateKey :=
  (m.device_id, "iface_" ++ toString m.interface_index)

/-- `AlarmEngine.evaluate_interface_metric` (alarm/__init__.py 94-180). -/
def evaluate_interface_metric (eng : AlarmEngine) (m : InterfaceMetric) :
    List Alarm × AlarmEngine :=
  let state_key := ifaceKey m
  let alarms :=
    if m.is_port_down then
      if ¬ storedFlag eng state_key "is_port_down" then
        [{ device_id := m.device_id, device_name := none,
           type := .port_down, severity := .critical }]
      else []
    else
      if storedFlag eng state_key "is_port_down" then
        [{ device_id := m.device_id, device_name := none,
           type := .port_up, severity := .info }]
      else []
  let newState : PyDict :=
    [("is_port_down", .pyBool m.is_port_down),
     ("admin_status", .pyStr m.admin_status),
     ("oper_status", .pyStr m.oper_status)]
  (alarms,
   ⟨setState eng.previous_state state_key
      ⟨m.device_id, "interface", toString m.interface_index, newState, m.timestamp⟩⟩)

/-- State key for device health: `(device_id, "device_health")`. -/
def healthKey (device_id : Int) : StateKey := (device_id, "device_health")

/-- State dict written by `evaluate_device_health` (alarm/__init__.py 294-317):
the high flags are recomputed from the current observation, with a None
measurement recorded as False. -/
def healthStateDict (cfg : AlarmConfig) (m : DeviceHealthMetric) : PyDict :=
  [("cpu_usage", optRatToPy m.cpu_usage),
   ("cpu_high", .pyBool (optGeb m.cpu_usage cfg.cpu_threshold)),
   ("memory_usage", optRatToPy m.memory_usage),
   ("memory_high", .pyBool (optGeb m.memory_usage cfg.memory_threshold)),
   ("temperature", optRatToPy m.temperature),
   ("temperature_high", .pyBool (optGeb m.temperature cfg.temperature_threshold))]

/-- `AlarmEngine.evaluate_device_health` (alarm/__init__.py 182-322). -/
def evaluate_device_health (cfg : AlarmConfig) (eng : AlarmEngine)
    (m : DeviceHealthMetric) : List Alarm × AlarmEngine :=
  let state_key := healthKey m.device_id
  let cpuAlarms :=
    if optGeb m.cpu_usage cfg.cpu_threshold then
      if ¬ storedFlag eng state_key "cpu_high" then
        [{ device_id := m.device_id, device_name := some m.device_name,
           type := .cpu_high, severity := .warning }]
      else []
    else []
  let memAlarms :=
    if optGeb m.memory_usage cfg.memory_threshold then
      if ¬ storedFlag eng state_key "memory_high" then
        [{ device_id := m.device_id, device_name := some m.device_name,
           type := .memory_high, severity := .warning }]
      else []
    else []
  let tempAlarms :=
    if optGeb m.temperature cfg.temperature_threshold then
      if ¬ storedFlag eng state_key "temperature_high" then
        [{ device_id := m.device_id, device_name := some m.device_name,
           type := .temperature_high, severity := .critical }]
      else []
    else []
  (cpuAlarms ++ memAlarms ++ tempAlarms,
   ⟨setState eng.previous_state state_key
      ⟨m.device_id, "device_health", toString m.device_id, healthStateDict cfg m,
       m.timestamp⟩⟩)

/-- State key for reachability: `(device_id, "device_reachability")`. -/
def reachKey (device_id : Int) : StateKey := (device_id, "device_reachability")

/-- `AlarmEngine.device_unreachable` (alarm/__init__.py 324-372). -/
def device_unreachable (eng : AlarmEngine) (device_id : Int) (device_name : String)
    (ts : Nat) : List Alarm × AlarmEngine :=
  let alarms :=
    if ¬ storedFlag eng (reachKey device_id) "unreachable" then
      [{ device_id := device_id, device_name := some device_name,
         type := .device_unreachable, severity := .critical }]
    else []
  (alarms,
   ⟨setState eng.previous_state (reachKey device_id)
      ⟨device_id, "reachability", toString device_id,
       [("unreachable", .pyBool true)], ts⟩⟩)

/-- `AlarmEngine.device_recovered` (alarm/__init__.py 374-422). -/
def device_recovered (eng : AlarmEngine) (device_id : Int) (device_name : String)
    (ts : Nat) : List Alarm × AlarmEngine :=
  let alarms :=
    if storedFlag eng (reachKey device_id) "unreachable" then
      [{ device_id := device_id, device_name := some device_name,
         type := .device_reachable, severity := .info }]
    else []
  (alarms,
   ⟨setState eng.previous_state (reachKey device_id)
      ⟨device_id, "reachability", toString device_id,
       [("unreachable", .pyBool false)], ts⟩⟩)

/-- Feed a sequence of health observations through the engine, concatenating
the emitted alarms in order. -/
def runHealth (cfg : AlarmConfig) (eng : AlarmEngine) :
    List DeviceHealthMetric → List Alarm × AlarmEngine
  | [] => ([], eng)
  | m :: rest =>
    let r1 := evaluate_device_health cfg eng m
    let r2 := runHealth cfg r1.2 rest
    (r1.1 ++ r2.1, r2.2)

/-- Feed a sequence of interface observations through the engine. -/
def runIface (eng : AlarmEngine) : List InterfaceMetric → List Alarm × AlarmEngine
  | [] => ([], eng)
  | m :: rest =>
    let r1 := evaluate_interface_metric eng m
    let r2 := runIface r1.2 rest
    (r1.1 ++ r2.1, r2.2)

/-- Feed a sequence of reachability events through the engine: `true` is a call
to `device_unreachable`, `false` a call to `device_recovered`. -/
def runReach (eng : AlarmEngine) (device_id : Int) (device_name : String) :
    List (Bool × Nat) → List Alarm × AlarmEngine
  | [] => ([], eng)
  | e :: rest =>
    let r1 :=
      if e.1 then device_unreachable eng device_id device_name e.2
      else device_recovered eng device_id device_name e.2
    let r2 := runReach r1.2 device_id device_name rest
    (r1.1 ++ r2.1, r2.2)

/-- Number of alarms of a given type in a list. -/
def countType (t : AlarmType) (l : List Alarm) : Nat :=
  (l.filter (fun a => decide (a.type = t))).length

/-- Number of rising edges of predicate `p` along a sequence, starting from a
previous value `b`: an element counts when `p` holds for it but did not hold
for its predecessor (or for the initial state). -/
def risingFrom (p : α → Bool) : Bool → List α → Nat
  | _, [] => 0
  | b, x :: xs => (if p x && !b then 1 else 0) + risingFrom p (p x) xs

end NMS

namespace NMS

/-- Writing a key and reading it back yields the written slot. -/
lemma lookupState_setState_self (l : List (StateKey × PreviousState))
    (k : StateKey) (v : PreviousState) : lookupState (setState l k v) k = some v := by
  induction l with
  | nil => simp [setState, lookupState]
  | cons hd tl ih =>
    obtain ⟨k', v'⟩ := hd
    by_cases h : k' = k
    · simp [setState, lookupState, h]
    · simp [setState, lookupState, h, ih]

/-- Writing one key leaves the others' slots unchanged. -/
lemma lookupState_setState_ne (l : List (StateKey × PreviousState))
    (k k2 : StateKey) (v : PreviousState) (h : k ≠ k2) :
    lookupState (setState l k v) k2 = lookupState l k2 := by
  induction l with
  | nil => simp [setState, lookupState, h]
  | cons hd tl ih =>
    obtain ⟨k', v'⟩ := hd
    by_cases h2 : k' = k
    · subst h2; simp [setState, lookupState, h]
    · simp [setState, lookupState, h2, ih]

lemma countType_append (t : AlarmType) (l1 l2 : List Alarm) :
    countType t (l1 ++ l2) = countType t l1 + countType t l2 := by
  simp [countType, List.filter_append]

lemma countType_nil (t : AlarmType) : countType t [] = 0 := rfl

lemma countType_singleton (t : AlarmType) (a : Alarm) :
    countType t [a] = if a.type = t then 1 else 0 := by
  by_cases h : a.type = t <;> simp [countType, List.filter, h]

/-- The cpu_high flag stored by a health evaluation is the current condition. -/
lemma health_flag_cpu (cfg : AlarmConfig) (eng : AlarmEngine) (m : DeviceHealthMetric) :
    storedFlag (evaluate_device_health cfg eng m).2 (healthKey m.device_id) "cpu_high" =
      optGeb m.cpu_usage cfg.cpu_threshold := by
  simp [evaluate_device_health, storedFlag, stateGet, lookupState_setState_self,
    healthStateDict, dictGetBool, dictLookup, pyTruthy]

lemma health_flag_memory (cfg : AlarmConfig) (eng : AlarmEngine) (m : DeviceHealthMetric) :
    storedFlag (evaluate_device_health cfg eng m).2 (healthKey m.device_id) "memory_high" =
      optGeb m.memory_usage cfg.memory_threshold := by
  simp [evaluate_device_health, storedFlag, stateGet, lookupState_setState_self,
    healthStateDict, dictGetBool, dictLookup, pyTruthy]

lemma health_flag_temperature (cfg : AlarmConfig) (eng : AlarmEngine) (m : DeviceHealthMetric) :
    storedFlag (evaluate_device_health cfg eng m).2 (healthKey m.device_id) "temperature_high" =
      optGeb m.temperature cfg.temperature_threshold := by
  simp [evaluate_device_health, storedFlag, stateGet, lookupState_setState_self,
    healthStateDict, dictGetBool, dictLookup, pyTruthy]

/-- One health evaluation emits a cpu_high alarm exactly on a rising edge of
the cpu condition. -/
lemma health_count_cpu (cfg : AlarmConfig) (eng : AlarmEngine) (m : DeviceHealthMetric) :
    countType .cpu_high (evaluate_device_health cfg eng m).1 =
      if optGeb m.cpu_usage cfg.cpu_threshold
          && ! storedFlag eng (healthKey m.device_id) "cpu_high" then 1 else 0 := by
  simp only [evaluate_device_health, countType_append]
  split_ifs <;> simp_all [countType, List.filter]

lemma health_count_memory (cfg : AlarmConfig) (eng : AlarmEngine) (m : DeviceHealthMetric) :
    countType .memory_high (evaluate_device_health cfg eng m).1 =
      if optGeb m.memory_usage cfg.memory_threshold
          && ! storedFlag eng (healthKey m.device_id) "memory_high" then 1 else 0 := by
  simp only [evaluate_device_health, countType_append]
  split_ifs <;> simp_all [countType, List.filter]

lemma health_count_temperature (cfg : AlarmConfig) (eng : AlarmEngine) (m : DeviceHealthMetric) :
    countType .temperature_high (evaluate_device_health cfg eng m).1 =
      if optGeb m.temperature cfg.temperature_threshold
          && ! storedFlag eng (healthKey m.device_id) "temperature_high" then 1 else 0 := by
  simp only [evaluate_device_health, countType_append]
  split_ifs <;> simp_all [countType, List.filter]

end NMS

namespace NMS

/-- The is_port_down flag stored by an interface evaluation is the current
port-down condition. -/
lemma iface_flag_after (eng : AlarmEngine) (m : InterfaceMetric) :
    storedFlag (evaluate_interface_metric eng m).2 (ifaceKey m) "is_port_down" =
      m.is_port_down := by
  simp [evaluate_interface_metric, storedFlag, stateGet, lookupState_setState_self,
    dictGetBool, dictLookup, pyTruthy]

/-- One interface evaluation emits a port_down alarm exactly on a rising edge
of the port-down condition. -/
lemma iface_count_port_down (eng : AlarmEngine) (m : InterfaceMetric) :
    countType .port_down (evaluate_interface_metric eng m).1 =
      if m.is_port_down && ! storedFlag eng (ifaceKey m) "is_port_down" then 1
      else 0 := by
  simp only [evaluate_interface_metric]
  split_ifs <;> simp_all [countType, List.filter]

/-- After `device_unreachable` the stored unreachable flag is true. -/
lemma unreachable_flag_after (eng : AlarmEngine) (d : Int) (nm : String) (ts : Nat) :
    storedFlag (device_unreachable eng d nm ts).2 (reachKey d) "unreachable" = true := by
  simp [device_unreachable, storedFlag, stateGet, lookupState_setState_self,
    dictGetBool, dictLookup, pyTruthy]

/-- After `device_recovered` the stored unreachable flag is false. -/
lemma recovered_flag_after (eng : AlarmEngine) (d : Int) (nm : String) (ts : Nat) :
    storedFlag (device_recovered eng d nm ts).2 (reachKey d) "unreachable" = false := by
  simp [device_recovered, storedFlag, stateGet, lookupState_setState_self,
    dictGetBool, dictLookup, pyTruthy]

/-- `device_unreachable` emits the critical alarm exactly when the previous
state was not unreachable. -/
lemma unreachable_count (eng : AlarmEngine) (d : Int) (nm : String) (ts : Nat) :
    countType .device_unreachable (device_unreachable eng d nm ts).1 =
      if ! storedFlag eng (reachKey d) "unreachable" then 1 else 0 := by
  simp only [device_unreachable]
  split_ifs <;> simp_all [countType, List.filter]

/-- `device_recovered` never emits a device_unreachable alarm. -/
lemma recovered_count_unreachable (eng : AlarmEngine) (d : Int) (nm : String) (ts : Nat) :
    countType .device_unreachable (device_recovered eng d nm ts).1 = 0 := by
  simp only [device_recovered]
  split_ifs <;> simp_all [countType, List.filter]

/-- Over a sequence of same-device health observations, the number of emitted
cpu_high alarms equals the number of rising edges of the cpu condition. -/
lemma runHealth_count_cpu (cfg : AlarmConfig) (d : Int) :
    ∀ (obs : List DeviceHealthMetric) (eng : AlarmEngine),
      (∀ m ∈ obs, m.device_id = d) →
      countType .cpu_high (runHealth cfg eng obs).1 =
        risingFrom (fun m => optGeb m.cpu_usage cfg.cpu_threshold)
          (storedFlag eng (healthKey d) "cpu_high") obs := by
  intro obs
  induction obs with
  | nil => intro eng _; simp [runHealth, countType, risingFrom]
  | cons m rest ih =>
    intro eng h
    have hd : m.device_id = d := h m (by simp)
    have hrest : ∀ m2 ∈ rest, m2.device_id = d := fun m2 hm => h m2 (by simp [hm])
    have hf : storedFlag (evaluate_device_health cfg eng m).2 (healthKey d) "cpu_high" =
        optGeb m.cpu_usage cfg.cpu_threshold := by
      rw [← hd]; exact health_flag_cpu cfg eng m
    have hc : countType .cpu_high (evaluate_device_health cfg eng m).1 =
        if optGeb m.cpu_usage cfg.cpu_threshold
            && ! storedFlag eng (healthKey d) "cpu_high" then 1 else 0 := by
      rw [health_count_cpu, hd]
    show countType .cpu_high ((evaluate_device_health cfg eng m).1 ++
        (runHealth cfg (evaluate_device_health cfg eng m).2 rest).1) = _
    rw [countType_append, hc, ih _ hrest, hf, risingFrom]

lemma runHealth_count_memory (cfg : AlarmConfig) (d : Int) :
    ∀ (obs : List DeviceHealthMetric) (eng : AlarmEngine),
      (∀ m ∈ obs, m.device_id = d) →
      countType .memory_high (runHealth cfg eng obs).1 =
        risingFrom (fun m => optGeb m.memory_usage cfg.memory_threshold)
          (storedFlag eng (healthKey d) "memory_high") obs := by
  intro obs
  induction obs with
  | nil => intro eng _; simp [runHealth, countType, risingFrom]
  | cons m rest ih =>
    intro eng h
    have hd : m.device_id = d := h m (by simp)
    have hrest : ∀ m2 ∈ rest, m2.device_id = d := fun m2 hm => h m2 (by simp [hm])
    have hf : storedFlag (evaluate_device_health cfg eng m).2 (healthKey d) "memory_high" =
        optGeb m.memory_usage cfg.memory_threshold := by
      rw [← hd]; exact health_flag_memory cfg eng m
    have hc : countType .memory_high (evaluate_device_health cfg eng m).1 =
        if optGeb m.memory_usage cfg.memory_threshold
            && ! storedFlag eng (healthKey d) "memory_high" then 1 else 0 := by
      rw [health_count_memory, hd]
    show countType .memory_high ((evaluate_device_health cfg eng m).1 ++
        (runHealth cfg (evaluate_device_health cfg eng m).2 rest).1) = _
    rw [countType_append, hc, ih _ hrest, hf, risingFrom]

lemma runHealth_count_temperature (cfg : AlarmConfig) (d : Int) :
    ∀ (obs : List DeviceHealthMetric) (eng : AlarmEngine),
      (∀ m ∈ obs, m.device_id = d) →
      countType .temperature_high (runHealth cfg eng obs).1 =
        risingFrom (fun m => optGeb m.temperature cfg.temperature_threshold)
          (storedFlag eng (healthKey d) "temperature_high") obs := by
  intro obs
  induction obs with
  | nil => intro eng _; simp [runHealth, countType, risingFrom]
  | cons m rest ih =>
    intro eng h
    have hd : m.device_id = d := h m (by simp)
    have hrest : ∀ m2 ∈ rest, m2.device_id = d := fun m2 hm => h m2 (by simp [hm])
    have hf : storedFlag (evaluate_device_health cfg eng m).2 (healthKey d)
        "temperature_high" = optGeb m.temperature cfg.temperature_threshold := by
      rw [← hd]; exact health_flag_temperature cfg eng m
    have hc : countType .temperature_high (evaluate_device_health cfg eng m).1 =
        if optGeb m.temperature cfg.temperature_threshold
            && ! storedFlag eng (healthKey d) "temperature_high" then 1 else 0 := by
      rw [health_count_temperature, hd]
    show countType .temperature_high ((evaluate_device_health cfg eng m).1 ++
        (runHealth cfg (evaluate_device_health cfg eng m).2 rest).1) = _
    rw [countType_append, hc, ih _ hrest, hf, risingFrom]

/-- Over a sequence of observations for one fixed interface, the number of
emitted port_down alarms equals the rising edges of the port-down condition. -/
lemma runIface_count_port_down (d i : Int) :
    ∀ (obs : List InterfaceMetric) (eng : AlarmEngine),
      (∀ m ∈ obs, m.device_id = d ∧ m.interface_index = i) →
      countType .port_down (runIface eng obs).1 =
        risingFrom (fun m => m.is_port_down)
          (storedFlag eng (d, "iface_" ++ toString i) "is_port_down") obs := by
  intro obs
  induction obs with
  | nil => intro eng _; simp [runIface, countType, risingFrom]
  | cons m rest ih =>
    intro eng h
    have hd : m.device_id = d ∧ m.interface_index = i := h m (by simp)
    have hkey : ifaceKey m = (d, "iface_" ++ toString i) := by
      unfold ifaceKey; rw [hd.1, hd.2]
    have hrest : ∀ m2 ∈ rest, m2.device_id = d ∧ m2.interface_index = i :=
      fun m2 hm => h m2 (by simp [hm])
    have hf : storedFlag (evaluate_interface_metric eng m).2
        (d, "iface_" ++ toString i) "is_port_down" = m.is_port_down := by
      rw [← hkey]; exact iface_flag_after eng m
    have hc : countType .port_down (evaluate_interface_metric eng m).1 =
        if m.is_port_down
            && ! storedFlag eng (d, "iface_" ++ toString i) "is_port_down" then 1
        else 0 := by
      rw [iface_count_port_down, hkey]
    show countType .port_down ((evaluate_interface_metric eng m).1 ++
        (runIface (evaluate_interface_metric eng m).2 rest).1) = _
    rw [countType_append, hc, ih _ hrest, hf, risingFrom]

/-- Over a sequence of reachability events, the number of emitted
device_unreachable alarms equals the rising edges of the unreachable flag. -/
lemma runReach_count (d : Int) (nm : String) :
    ∀ (evs : List (Bool × Nat)) (eng : AlarmEngine),
      countType .device_unreachable (runReach eng d nm evs).1 =
        risingFrom (fun e => e.1) (storedFlag eng (reachKey d) "unreachable") evs := by
  intro evs
  induction evs with
  | nil => intro eng; simp [runReach, countType, risingFrom]
  | cons e rest ih =>
    intro eng
    rcases e with ⟨b, ts⟩
    cases b with
    | true =>
      show countType .device_unreachable ((device_unreachable eng d nm ts).1 ++
          (runReach (device_unreachable eng d nm ts).2 d nm rest).1) = _
      rw [countType_append, unreachable_count, ih, risingFrom, unreachable_flag_after]
      simp
    | false =>
      show countType .device_unreachable ((device_recovered eng d nm ts).1 ++
          (runReach (device_recovered eng d nm ts).2 d nm rest).1) = _
      rw [countType_append, recovered_count_unreachable, ih, risingFrom,
        recovered_flag_after]
      simp

end NMS

namespace NMS

/-- The default alarm configuration: all thresholds 80. -/
def cfgDefault : AlarmConfig := {}

/-- A health sample with cpu at 90 (above the default threshold 80). -/
def mCpuHigh : DeviceHealthMetric := ⟨1, "dev", 0, some 90, none, none, 0⟩

/-- A health sample with a null cpu measurement. -/
def mCpuNull : DeviceHealthMetric := ⟨1, "dev", 0, none, none, none, 1⟩

/-- A second high cpu sample, after the null one. -/
def mCpuHigh2 : DeviceHealthMetric := ⟨1, "dev", 0, some 90, none, none, 2⟩

/-- Engine state after processing the high cpu sample. -/
def engAfterHigh : AlarmEngine :=
  (evaluate_device_health cfgDefault AlarmEngine.empty mCpuHigh).2

end NMS

/-- Claim C3, counterexample: after a high cpu sample the stored cpu_high flag
is true; feeding a null cpu sample emits nothing but RESETS the stored flag to
false instead of leaving it intact — and consequently the high/null/high
sequence emits the cpu_high alarm twice. -/
theorem health_null_transitions_state_counterexample :
    storedFlag engAfterHigh (healthKey 1) "cpu_high" = true ∧
    (evaluate_device_health cfgDefault engAfterHigh mCpuNull).1 = [] ∧
    storedFlag (evaluate_device_health cfgDefault engAfterHigh mCpuNull).2
      (healthKey 1) "cpu_high" = false ∧
    countType .cpu_high
      (runHealth cfgDefault AlarmEngine.empty [mCpuHigh, mCpuNull, mCpuHigh2]).1 = 2 := by
  refine ⟨by decide, by decide, by decide, by decide⟩

/-- Claim C3 (amended): for each of cpu/memory/temperature, a null current
value emits no alarm for that metric, but the stored high flag is recomputed
as false (it is NOT left intact), so a null measurement resets — rather than
preserves — the stored state. -/
theorem health_null_emits_nothing_and_resets (cfg : AlarmConfig)
    (eng : AlarmEngine) (m : DeviceHealthMetric) :
    (m.cpu_usage = none →
      countType .cpu_high (evaluate_device_health cfg eng m).1 = 0 ∧
      storedFlag (evaluate_device_health cfg eng m).2 (healthKey m.device_id)
        "cpu_high" = false) ∧
    (m.memory_usage = none →
      countType .memory_high (evaluate_device_health cfg eng m).1 = 0 ∧
      storedFlag (evaluate_device_health cfg eng m).2 (healthKey m.device_id)
        "memory_high" = false) ∧
    (m.temperature = none →
      countType .temperature_high (evaluate_device_health cfg eng m).1 = 0 ∧
      storedFlag (evaluate_device_health cfg eng m).2 (healthKey m.device_id)
        "temperature_high" = false) := by
  refine ⟨fun h => ⟨?_, ?_⟩, fun h => ⟨?_, ?_⟩, fun h => ⟨?_, ?_⟩⟩
  · rw [health_count_cpu]; simp [optGeb, h]
  · rw [health_flag_cpu]; simp [optGeb, h]
  · rw [health_count_memory]; simp [optGeb, h]
  · rw [health_flag_memory]; simp [optGeb, h]
  · rw [health_count_temperature]; simp [optGeb, h]
  · rw [health_flag_temperature]; simp [optGeb, h]

/-- Witness for the amended C3 theorem at a concrete null observation. -/
theorem health_null_emits_nothing_and_resets_witness :
    countType .cpu_high (evaluate_device_health cfgDefault AlarmEngine.empty mCpuNull).1 = 0 ∧
    storedFlag (evaluate_device_health cfgDefault AlarmEngine.empty mCpuNull).2
      (healthKey 1) "cpu_high" = false :=
  (health_null_emits_nothing_and_resets cfgDefault AlarmEngine.empty mCpuNull).1 rfl

/-- Claim C4: across any sequence of observations for a fixed (device,
metric-key), the engine emits exactly one alarm per rising edge of the alarmed
condition — hence at most one cpu_high/memory_high/temperature_high/port_down/
device_unreachable event between consecutive transitions into the alarmed
state, and no duplicates while the condition stays true; thresholds are
evaluated with >=, so a value equal to the threshold counts as alarmed. -/
theorem alarm_engine_edge_triggered (cfg : AlarmConfig) (d i : Int) (nm : String)
    (obsH : List DeviceHealthMetric) (obsI : List InterfaceMetric)
    (evs : List (Bool × Nat))
    (hH : ∀ m ∈ obsH, m.device_id = d)
    (hI : ∀ m ∈ obsI, m.device_id = d ∧ m.interface_index = i) :
    countType .cpu_high (runHealth cfg AlarmEngine.empty obsH).1 =
      risingFrom (fun m => optGeb m.cpu_usage cfg.cpu_threshold) false obsH ∧
    countType .memory_high (runHealth cfg AlarmEngine.empty obsH).1 =
      risingFrom (fun m => optGeb m.memory_usage cfg.memory_threshold) false obsH ∧
    countType .temperature_high (runHealth cfg AlarmEngine.empty obsH).1 =
      risingFrom (fun m => optGeb m.temperature cfg.temperature_threshold) false obsH ∧
    countType .port_down (runIface AlarmEngine.empty obsI).1 =
      risingFrom (fun m => m.is_port_down) false obsI ∧
    countType .device_unreachable (runReach AlarmEngine.empty d nm evs).1 =
      risingFrom (fun e => e.1) false evs ∧
    optGeb (some cfg.cpu_threshold) cfg.cpu_threshold = true := by
  refine ⟨?_, ?_, ?_, ?_, ?_, by simp [optGeb]⟩
  · have h := runHealth_count_cpu cfg d obsH AlarmEngine.empty hH
    rwa [show storedFlag AlarmEngine.empty (healthKey d) "cpu_high" = false from rfl] at h
  · have h := runHealth_count_memory cfg d obsH AlarmEngine.empty hH
    rwa [show storedFlag AlarmEngine.empty (healthKey d) "memory_high" = false from rfl] at h
  · have h := runHealth_count_temperature cfg d obsH AlarmEngine.empty hH
    rwa [show storedFlag AlarmEngine.empty (healthKey d) "temperature_high" = false from rfl] at h
  · have h := runIface_count_port_down d i obsI AlarmEngine.empty hI
    rwa [show storedFlag AlarmEngine.empty (d, "iface_" ++ toString i) "is_port_down" = false
      from rfl] at h
  · have h := runReach_count d nm evs AlarmEngine.empty
    rwa [show storedFlag AlarmEngine.empty (reachKey d) "unreachable" = false from rfl] at h

/-- The S2 scenario: cpu samples 70, 85, 90 against threshold 80. -/
def obsS2 : List DeviceHealthMetric :=
  [⟨1, "dev", 0, some 70, none, none, 0⟩,
   ⟨1, "dev", 0, some 85, none, none, 1⟩,
   ⟨1, "dev", 0, some 90, none, none, 2⟩]

/-- Witness for the C4 theorem on the S2 scenario: one cpu_high alarm total. -/
theorem alarm_engine_edge_triggered_witness :
    countType .cpu_high (runHealth cfgDefault AlarmEngine.empty obsS2).1 =
      risingFrom (fun m => optGeb m.cpu_usage cfgDefault.cpu_threshold) false obsS2 ∧
    countType .cpu_high (runHealth cfgDefault AlarmEngine.empty obsS2).1 = 1 :=
  ⟨(alarm_engine_edge_triggered cfgDefault 1 1 "dev" obsS2 [] []
      (by decide) (by decide)).1, by decide⟩

/-- Claim C6: when the stored state for an interface marks the port as down,
an observation with admin="up" and oper="up" makes the engine emit exactly one
port_up recovery alarm with info severity; and from a fresh state, a
down-then-up flap for the same interface emits one port_down/critical followed
by one port_up/info, in that order. -/
theorem port_recovery_emission (eng : AlarmEngine) (m m1 m2 : InterfaceMetric)
    (hflag : storedFlag eng (ifaceKey m) "is_port_down" = true)
    (hadmin : m.admin_status = "up") (hoper : m.oper_status = "up")
    (h1a : m1.admin_status = "up") (h1o : m1.oper_status = "down")
    (h2a : m2.admin_status = "up") (h2o : m2.oper_status = "up")
    (hsame : m2.device_id = m1.device_id ∧ m2.interface_index = m1.interface_index) :
    (evaluate_interface_metric eng m).1.map (fun a => (a.type, a.severity)) =
      [(AlarmType.port_up, AlarmSeverity.info)] ∧
    (runIface AlarmEngine.empty [m1, m2]).1.map (fun a => (a.type, a.severity)) =
      [(AlarmType.port_down, AlarmSeverity.critical),
       (AlarmType.port_up, AlarmSeverity.info)] := by
  have hpd : m.is_port_down = false := by
    unfold InterfaceMetric.is_port_down
    rw [hadmin, hoper]; decide
  have h1pd : m1.is_port_down = true := by
    unfold InterfaceMetric.is_port_down
    rw [h1a, h1o]; decide
  have h2pd : m2.is_port_down = false := by
    unfold InterfaceMetric.is_port_down
    rw [h2a, h2o]; decide
  constructor
  · simp [evaluate_interface_metric, hpd, hflag]
  · have hk : ifaceKey m2 = ifaceKey m1 := by
      unfold ifaceKey; rw [hsame.1, hsame.2]
    have hf1 : storedFlag AlarmEngine.empty (ifaceKey m1) "is_port_down" = false := rfl
    have ha1 : (evaluate_interface_metric AlarmEngine.empty m1).1 =
        [⟨m1.device_id, none, .port_down, .critical⟩] := by
      simp [evaluate_interface_metric, h1pd, hf1]
    have hf2 : storedFlag (evaluate_interface_metric AlarmEngine.empty m1).2
        (ifaceKey m2) "is_port_down" = true := by
      rw [hk, iface_flag_after, h1pd]
    have ha2 : (evaluate_interface_metric
        (evaluate_interface_metric AlarmEngine.empty m1).2 m2).1 =
        [⟨m2.device_id, none, .port_up, .info⟩] := by
      simp only [evaluate_interface_metric] at hf2 ⊢
      simp [h2pd, hf2]
    simp [runIface, ha1, ha2]

/-- A port-down sample (admin up, oper down) for device 1, ifIndex 3. -/
def mIfDown : InterfaceMetric := ⟨1, 3, "if3", "uplink", "up", "down", 0, 0, 0, 0⟩

/-- A recovered sample (admin up, oper up) for the same interface. -/
def mIfUp : InterfaceMetric := ⟨1, 3, "if3", "uplink", "up", "up", 0, 0, 0, 1⟩

/-- Engine state after processing the port-down sample. -/
def engAfterDown : AlarmEngine :=
  (evaluate_interface_metric AlarmEngine.empty mIfDown).2

/-- Witness for the C6 theorem on a concrete flap. -/
theorem port_recovery_emission_witness :
    (evaluate_interface_metric engAfterDown mIfUp).1.map (fun a => (a.type, a.severity)) =
      [(AlarmType.port_up, AlarmSeverity.info)] ∧
    (runIface AlarmEngine.empty [mIfDown, mIfUp]).1.map (fun a => (a.type, a.severity)) =
      [(AlarmType.port_down, AlarmSeverity.critical),
       (AlarmType.port_up, AlarmSeverity.info)] :=
  port_recovery_emission engAfterDown mIfUp mIfDown mIfUp
    (by decide) rfl rfl rfl rfl rfl rfl ⟨rfl, rfl⟩

namespace NMS

/-- Python `s.split(".")[-1]`: the characters after the last dot. -/
def lastComponent (oid : String) : String :=
  ⟨(oid.data.reverse.takeWhile (fun c => c ≠ '.')).reverse⟩

/-- Inputs of the cisco temperature block of `SNMPPoller.poll_device_health`
(snmp/poller.py 277-314), cut at the session interface: the three direct
envmon reads (already passed through `safe_float(_, None)`), the walk of the
entity sensor-type table, the per-index sensor value reads, and the values of
the final envmon table walk (numeric values; a non-numeric string there would
abort the whole health poll through the outer handler and is not modelled). -/
structure CiscoTempEnv where
  direct1 : Option ℚ
  direct1004 : Option ℚ
  direct1001 : Option ℚ
  sensorTypeWalk : List (String × PyVal)
  sensorValue : String → Option ℚ
  tempTableWalk : List ℚ

/-- The loop over the three direct envmon OIDs (snmp/poller.py 283-290): the
variable `temperature` is overwritten by each read; the first positive value
is scaled by 10 when above 150 and breaks the loop.  There is no
divide-by-1000 rule on this path. -/
def ciscoDirectTempLoop : Option ℚ → List (Option ℚ) → Option ℚ
  | acc, [] => acc
  | _, v :: rest =>
    match v with
    | some t =>
      if t > 0 then some (if t > 150 then t / 10 else t)
      else ciscoDirectTempLoop (some t) rest
    | none => ciscoDirectTempLoop none rest

/-- The CISCO-ENTITY-SENSOR-MIB loop (snmp/poller.py 293-305): for each walked
sensor whose type stringifies to "8" (Celsius), read the sensor value; the
first positive reading is scaled by 1000 when above 1000, else by 10 when
above 150, and breaks the loop. -/
def ciscoEntityTempLoop (read : String → Option ℚ) :
    Option ℚ → List (String × PyVal) → Option ℚ
  | acc, [] => acc
  | acc, (s_oid, s_type) :: rest =>
    if pyStrOf s_type = "8" then
      match read (lastComponent s_oid) with
      | some t =>
        if t > 0 then
          some (if t > 1000 then t / 1000 else if t > 150 then t / 10 else t)
        else ciscoEntityTempLoop read (some t) rest
      | none => ciscoEntityTempLoop read none rest
    else ciscoEntityTempLoop read acc rest

/-- The final walk over the old envmon temperature table (snmp/poller.py
308-314): the first truthy positive value is taken AS-IS, with no scaling. -/
def ciscoTableTempLoop : List ℚ → Option ℚ
  | [] => none
  | t :: rest => if t ≠ 0 ∧ t > 0 then some t else ciscoTableTempLoop rest

/-- The cisco temperature computation of `poll_device_health` (snmp/poller.py
277-314): direct envmon gets first; the entity-sensor walk only when that left
`temperature` as None; the final envmon table walk only when still None. -/
def ciscoTemperature (env : CiscoTempEnv) : Option ℚ :=
  let t1 := ciscoDirectTempLoop none [env.direct1, env.direct1004, env.direct1001]
  match t1 with
  | some t => some t
  | none =>
    match ciscoEntityTempLoop env.sensorValue none env.sensorTypeWalk with
    | some t => some t
    | none => ciscoTableTempLoop env.tempTableWalk

/-- Modelled from the spec sentence behind claim C7: the single scaling rule
"raw > 1000 → divide by 1000; raw > 150 → divide by 10; else use as-is". -/
def specTempScale (t : ℚ) : ℚ :=
  if t > 1000 then t / 1000 else if t > 150 then t / 10 else t

/-- Environment where the first direct envmon OID returns raw 24500. -/
def envDirect24500 : CiscoTempEnv :=
  ⟨some 24500, none, none, [], fun _ => none, []⟩

/-- Environment where only the final envmon table walk yields a value, 245. -/
def envTable245 : CiscoTempEnv :=
  ⟨none, none, none, [], fun _ => none, [245]⟩

end NMS

/-- Claim C7, counterexample: the claimed single scaling rule maps raw 24500
to 24.5 on every cisco path, but the direct envmon path only divides by 10
(yielding 2450), and the final table walk applies no scaling at all (raw 245
stays 245 instead of becoming 24.5). -/
theorem cisco_temperature_scaling_counterexample :
    ciscoTemperature envDirect24500 = some 2450 ∧
    specTempScale 24500 = 49 / 2 ∧
    ciscoTemperature envTable245 = some 245 ∧
    specTempScale 245 = 49 / 2 ∧
    (2450 : ℚ) ≠ 49 / 2 ∧ (245 : ℚ) ≠ 49 / 2 := by
  refine ⟨?_, ?_, ?_, ?_, by norm_num, by norm_num⟩
  · have h150 : (24500 : ℚ) > 150 := by norm_num
    have h0 : (24500 : ℚ) > 0 := by norm_num
    have h : ciscoTemperature envDirect24500 = some ((24500 : ℚ) / 10) := by
      simp [ciscoTemperature, envDirect24500, ciscoDirectTempLoop, h150, h0]
    rw [h]; norm_num
  · norm_num [specTempScale]
  · have h : ciscoTemperature envTable245 = some 245 := by
      simp [ciscoTemperature, envTable245, ciscoDirectTempLoop, ciscoEntityTempLoop,
        ciscoTableTempLoop]
    exact h
  · norm_num [specTempScale]

/-- Claim C7 (amended): the scaling applied to a positive cisco raw
temperature reading depends on the path that produced it: the entity-sensor
walk applies the full rule (>1000 divide by 1000, else >150 divide by 10, so
245 → 24.5, 24500 → 24.5, 24 → 24), the direct envmon gets apply only the
>150 divide-by-10 rule (24500 → 2450), and the final envmon table walk uses
the raw value as-is (245 → 245). -/
theorem cisco_temperature_scaling_by_path (r : ℚ) (hr : 0 < r) (oid : String) :
    ciscoTemperature ⟨some r, none, none, [], fun _ => none, []⟩ =
      some (if r > 150 then r / 10 else r) ∧
    ciscoTemperature ⟨none, none, none, [(oid, PyVal.pyStr "8")], fun _ => some r, []⟩ =
      some (specTempScale r) ∧
    ciscoTemperature ⟨none, none, none, [], fun _ => none, [r]⟩ = some r ∧
    specTempScale 245 = 49 / 2 ∧ specTempScale 24500 = 49 / 2 ∧
    specTempScale 24 = 24 := by
  refine ⟨?_, ?_, ?_, by norm_num [specTempScale], by norm_num [specTempScale],
    by norm_num [specTempScale]⟩
  · simp [ciscoTemperature, ciscoDirectTempLoop, hr]
  · simp [ciscoTemperature, ciscoDirectTempLoop, ciscoEntityTempLoop, pyStrOf,
      specTempScale, hr]
  · simp [ciscoTemperature, ciscoDirectTempLoop, ciscoEntityTempLoop,
      ciscoTableTempLoop, hr, ne_of_gt hr]

/-- Witness for the amended C7 theorem at raw value 245. -/
theorem cisco_temperature_scaling_by_path_witness :
    ciscoTemperature ⟨some 245, none, none, [], fun _ => none, []⟩ =
      some (if (245 : ℚ) > 150 then (245 : ℚ) / 10 else 245) ∧
    ciscoTemperature ⟨none, none, none, [("1.3.6.1.4.1.9.9.91.1.1.1.1.1.1",
        PyVal.pyStr "8")], fun _ => some 245, []⟩ = some (specTempScale 245) :=
  ⟨(cisco_temperature_scaling_by_path 245 (by norm_num) "x").1,
   (cisco_temperature_scaling_by_path 245 (by norm_num)
      "1.3.6.1.4.1.9.9.91.1.1.1.1.1.1").2.1⟩

namespace NMS

/-- Outcome of the SNMP getCmd round inside `get_multiple` (snmp/session.py
214-245): an error indication, a non-zero error status, a successful list of
variable bindings, or some other exception raised inside the try block. -/
inductive SNMPRespModel where
  | errorIndication
  | errorStatus
  | okBinds (binds : List (String × PyVal))
  | raisedExc
deriving Repr

/-- Whether the response is one of the error outcomes. -/
def snmpRespIsError : SNMPRespModel → Bool
  | .okBinds _ => false
  | _ => true

/-- Update-or-insert into the OID→value result map (Python dict assignment
`results[oid_str] = value`). -/
def resultsSet (m : List (String × Option PyVal)) (k : String) (v : Option PyVal) :
    List (String × Option PyVal) :=
  match m with
  | [] => [(k, v)]
  | (k', v') :: rest =>
    if k' = k then (k, v) :: rest else (k', v') :: resultsSet rest k v

/-- `SNMPSession.get_multiple` (snmp/session.py 197-253).  The TCP
connectivity pre-check failing raises `SNMPDeviceUnreachable` (also re-raised
past the except clauses); otherwise a result map primed with None for every
requested OID is returned: unchanged on error indication / error status,
overlaid with the received bindings on success, and rebuilt all-None when any
other exception escapes the try block. -/
def get_multiple (connectivityOk : Bool) (resp : SNMPRespModel)
    (oids : List String) :
    Except String (List (String × Option PyVal)) :=
  if ¬ connectivityOk then .error "SNMPDeviceUnreachable"
  else
    let results := oids.map (fun o => (o, (none : Option PyVal)))
    match resp with
    | .errorIndication => .ok results
    | .errorStatus => .ok results
    | .okBinds binds =>
      .ok (binds.foldl (fun acc b => resultsSet acc b.1 (some b.2)) results)
    | .raisedExc => .ok (oids.map (fun o => (o, (none : Option PyVal))))

end NMS

/-- Claim C8, counterexample: `get_multiple` is not exception-free — when the
TCP connectivity pre-check fails it raises `SNMPDeviceUnreachable` instead of
returning an all-null map. -/
theorem get_multiple_raises_counterexample :
    get_multiple false SNMPRespModel.errorIndication ["1.3.6.1.2.1.2.2.1.2.1"] =
      Except.error "SNMPDeviceUnreachable" := rfl

/-- Claim C8 (amended): when the connectivity pre-check succeeds,
`get_multiple` never raises: on an error indication, a non-zero error status,
or any other exception inside the try block, it returns a map carrying an
entry for every requested OID with all entries null, so per-interface fetches
can continue.  When the pre-check fails, it raises `SNMPDeviceUnreachable`
instead. -/
theorem get_multiple_error_behaviour (resp : SNMPRespModel) (oids : List String)
    (h : snmpRespIsError resp = true) :
    get_multiple true resp oids =
      Except.ok (oids.map (fun o => (o, (none : Option PyVal)))) ∧
    get_multiple false resp oids = Except.error "SNMPDeviceUnreachable" := by
  refine ⟨?_, rfl⟩
  cases resp with
  | errorIndication => rfl
  | errorStatus => rfl
  | okBinds binds => simp [snmpRespIsError] at h
  | raisedExc => rfl

/-- Witness for the amended C8 theorem on a two-OID request with an SNMP
error status. -/
theorem get_multiple_error_behaviour_witness :
    get_multiple true SNMPRespModel.errorStatus
        ["1.3.6.1.2.1.2.2.1.7.1", "1.3.6.1.2.1.2.2.1.8.1"] =
      Except.ok [("1.3.6.1.2.1.2.2.1.7.1", none), ("1.3.6.1.2.1.2.2.1.8.1", none)] ∧
    get_multiple false SNMPRespModel.errorStatus
        ["1.3.6.1.2.1.2.2.1.7.1", "1.3.6.1.2.1.2.2.1.8.1"] =
      Except.error "SNMPDeviceUnreachable" :=
  get_multiple_error_behaviour SNMPRespModel.errorStatus
    ["1.3.6.1.2.1.2.2.1.7.1", "1.3.6.1.2.1.2.2.1.8.1"] rfl

namespace NMS

/-- Python `int(x)` on a parsed SNMP value: ints pass through, floats truncate
toward zero, bools map to 1/0, strings must strip to a signed decimal digit
run, None raises (TypeError, modelled as `none`). -/
def pyIntOf : PyVal → Option Int
  | .pyNone => none
  | .pyBool b => some (if b then 1 else 0)
  | .pyIntV n => some n
  | .pyRat q => some (ratTrunc q)
  | .pyStr s => parseSignedDigits (pyStrip s).data

/-- Field names of the `InterfaceMetric` dataclass (core/models.py 48-64). -/
def interfaceMetricFields : List String :=
  ["device_id", "interface_index", "interface_name", "description",
   "admin_status", "oper_status", "speed", "in_octets", "out_octets",
   "timestamp"]

/-- Keyword arguments passed to the `InterfaceMetric(...)` call in
`SNMPPoller.poll_interfaces` (snmp/poller.py 176-192). -/
def pollerInterfaceMetricKwargs : List String :=
  ["device_id", "interface_index", "interface_name", "description",
   "admin_status", "oper_status", "speed", "in_octets", "out_octets",
   "in_errors", "out_errors", "mtu", "timestamp"]

/-- A Python dataclass constructor call succeeds only when every keyword
argument names a field of the dataclass; otherwise it raises TypeError. -/
def interfaceMetricCtorOk : Bool :=
  pollerInterfaceMetricKwargs.all (fun k => interfaceMetricFields.contains k)

/-- The per-index ifTable column OID `1.3.6.1.2.1.2.2.1.<column>.<idx>`. -/
def ifOid (column : String) (idx : Int) : String :=
  "1.3.6.1.2.1.2.2.1." ++ column ++ "." ++ toString idx

/-- `values.get(oid)` on the get_multiple result: absent key and stored None
both read as None. -/
def valuesGet (values : List (String × Option PyVal)) (k : String) : Option PyVal :=
  match values.find? (fun p => p.1 = k) with
  | some p => p.2
  | none => none

/-- `values.get(oid, default_str)` for the description field: a present key
yields the stringified stored value (str(None) = "None"), an absent key the
default. -/
def descrGet (values : List (String × Option PyVal)) (k : String) (dflt : String) :
    String :=
  match values.find? (fun p => p.1 = k) with
  | some p =>
    match p.2 with
    | some v => pyStrOf v
    | none => pyStrOf PyVal.pyNone
  | none => dflt

/-- One iteration of the interface loop of `SNMPPoller.poll_interfaces`
(snmp/poller.py 148-200).  `int(index_value)` failing (ValueError) skips the
index; otherwise the `InterfaceMetric(...)` call passes the keyword arguments
in_errors, out_errors and mtu, which are NOT fields of the dataclass — in
Python this raises TypeError, caught by the per-index
`except (ValueError, TypeError, KeyError)` handler, skipping the index.  The
kwarg/field check is explicit below; the guarded body is the translation of
the values the call would bind. -/
def poll_interfaces_index (device_id : Int) (index_value : PyVal)
    (fetch : Int → List (String × Option PyVal)) (ts : Nat) :
    Option InterfaceMetric :=
  match pyIntOf index_value with
  | none => none
  | some iface_idx =>
    let values := fetch iface_idx
    if interfaceMetricCtorOk then
      let admin_status_int := safe_int (valuesGet values (ifOid "7" iface_idx)) 1
      let oper_status_int := safe_int (valuesGet values (ifOid "8" iface_idx)) 2
      some
        { device_id := device_id
          interface_index := iface_idx
          interface_name := "if" ++ toString iface_idx
          description :=
            descrGet values (ifOid "2" iface_idx)
              ("Interface " ++ toString iface_idx)
          admin_status := if admin_status_int = 1 then "up" else "down"
          oper_status := if oper_status_int = 1 then "up" else "down"
          speed := safe_int (valuesGet values (ifOid "5" iface_idx)) 0
          in_octets := safe_int (valuesGet values (ifOid "10" iface_idx)) 0
          out_octets := safe_int (valuesGet values (ifOid "16" iface_idx)) 0
          timestamp := ts }
    else none

/-- `SNMPPoller.poll_interfaces` (snmp/poller.py 120-211): walk the ifIndex
column (`indices`), then build one metric per index, skipping indices whose
iteration raised. -/
def poll_interfaces (device_id : Int) (indices : List (String × PyVal))
    (fetch : Int → List (String × Option PyVal)) (ts : Nat) :
    List InterfaceMetric :=
  indices.foldr
    (fun p acc =>
      match poll_interfaces_index device_id p.2 fetch ts with
      | some m => m :: acc
      | none => acc) []

/-- Every index iteration raises: either `int()` fails, or the constructor
call does (in_errors/out_errors/mtu are not dataclass fields). -/
lemma poll_interfaces_index_eq_none (device_id : Int) (index_value : PyVal)
    (fetch : Int → List (String × Option PyVal)) (ts : Nat) :
    poll_interfaces_index device_id index_value fetch ts = none := by
  unfold poll_interfaces_index
  cases pyIntOf index_value with
  | none => rfl
  | some i => simp [show interfaceMetricCtorOk = false from rfl]

end NMS

/-- Claim C2: the `InterfaceMetric` dataclass has no in_errors, out_errors or
mtu fields, yet `poll_interfaces` passes them as keyword arguments, so every
index's construction raises TypeError and is skipped by the per-index
handler: the interface poll returns the empty list for every walk result and
every fetched value set, instead of one record per enumerated ifIndex. -/
theorem poll_interfaces_always_empty (device_id : Int)
    (indices : List (String × PyVal))
    (fetch : Int → List (String × Option PyVal)) (ts : Nat) :
    interfaceMetricCtorOk = false ∧
    poll_interfaces device_id indices fetch ts = [] := by
  refine ⟨rfl, ?_⟩
  simp only [poll_interfaces, poll_interfaces_index_eq_none]
  induction indices with
  | nil => rfl
  | cons p rest ih => exact ih

namespace NMS

/-- Attribute names settable on the SQLAlchemy-mapped `Alarm` class
(database/models.py 68-96): the mapped columns, plus the class-level
`metadata` attribute inherited from the declarative Base (which lets a
`metadata=` keyword pass the constructor's hasattr check). -/
def alarmDBAttrs : List String :=
  ["id", "device_id", "alarm_code", "severity", "message", "status", "source",
   "acknowledged_at", "acknowledged_by", "resolved_at", "resolved_by",
   "alarm_metadata", "created_at", "metadata"]

/-- Keyword arguments passed to `AlarmDB(...)` in `AlarmRepository.create`
(database/repository.py 47-55), in source order. -/
def alarmRepoCreateKwargs : List String :=
  ["device_id", "device_name", "type", "severity", "message", "acknowledged",
   "metadata"]

/-- The alarms table: persisted rows as (assigned id, alarm event). -/
structure AlarmsTable where
  rows : List (Int × Alarm)
  nextId : Int
deriving DecidableEq, Repr

/-- `AlarmRepository.create` (database/repository.py 37-63).  The SQLAlchemy
declarative constructor raises TypeError at the first keyword argument that
is not an attribute of the mapped class; the except block rolls the session
back and re-raises, surfacing the error.  Only when every kwarg is settable
is a row added, committed and returned with its assigned id. -/
def alarmRepoCreate (tbl : AlarmsTable) (alarm : Alarm) :
    AlarmsTable × Except String Int :=
  match alarmRepoCreateKwargs.find? (fun k => ! alarmDBAttrs.contains k) with
  | some k =>
    (tbl, .error ("TypeError: " ++ k ++ " is an invalid keyword argument for Alarm"))
  | none =>
    ({ rows := tbl.rows ++ [(tbl.nextId, alarm)], nextId := tbl.nextId + 1 },
     .ok tbl.nextId)

/-- A row of the devices table (database/models.py 31-65), restricted to the
columns `update_status` reads or could write, plus the device name. -/
structure DeviceRow where
  id : Int
  name : String
  connection_status : String
  last_polled : Option Nat
  last_online : Option Nat
deriving DecidableEq, Repr

/-- `DeviceRepository.get_by_id` (database/repository.py 251-260): the first
row with the given id. -/
def device_get_by_id (db : List DeviceRow) (device_id : Int) : Option DeviceRow :=
  db.find? (fun d => decide (d.id = device_id))

/-- Mutate the first row with the given id (the ORM mutates the object
returned by `get_by_id` and commits). -/
def updateFirstDevice (db : List DeviceRow) (device_id : Int)
    (f : DeviceRow → DeviceRow) : List DeviceRow :=
  match db with
  | [] => []
  | d :: rest =>
    if d.id = device_id then f d :: rest
    else d :: updateFirstDevice rest device_id f

/-- `DeviceRepository.update_status` (database/repository.py 273-295): when
the device exists, set connection_status and stamp last_polled with the
current time, commit and return True; otherwise return False.  No other
column is written — in particular last_online is never touched. -/
def update_status (db : List DeviceRow) (device_id : Int) (status : String)
    (now : Nat) : List DeviceRow × Bool :=
  match device_get_by_id db device_id with
  | some _ =>
    (updateFirstDevice db device_id
       (fun d => { d with connection_status := status, last_polled := some now }),
     true)
  | none => (db, false)

/-- Updating the first matching row is seen by a subsequent id lookup,
provided the update keeps the id. -/
lemma device_get_updateFirst (i : Int) (f : DeviceRow → DeviceRow)
    (hf : ∀ d, (f d).id = d.id) :
    ∀ (db : List DeviceRow) (r : DeviceRow), device_get_by_id db i = some r →
      device_get_by_id (updateFirstDevice db i f) i = some (f r) := by
  intro db
  induction db with
  | nil => intro r h; simp [device_get_by_id] at h
  | cons d rest ih =>
    intro r h
    by_cases hd : d.id = i
    · have hr : r = d := by
        simp [device_get_by_id, List.find?, hd] at h
        exact h.symm
      subst hr
      simp [updateFirstDevice, hd, device_get_by_id, List.find?, hf]
    · simp [device_get_by_id, List.find?, hd] at h
      simp [updateFirstDevice, hd, device_get_by_id, List.find?]
      exact ih r h

end NMS

/-- Claim C5: `AlarmRepository.create` can never persist a row.  The kwargs it
passes include device_name, which is not an attribute of the mapped Alarm
model (whose columns are alarm_code/status/alarm_metadata etc.), so the
declarative constructor raises TypeError for every alarm; the repository
rolls back and re-raises, and the table is left unchanged. -/
theorem alarm_repo_create_always_raises (tbl : AlarmsTable) (alarm : Alarm) :
    (alarmRepoCreate tbl alarm).1 = tbl ∧
    (alarmRepoCreate tbl alarm).2 =
      Except.error "TypeError: device_name is an invalid keyword argument for Alarm" :=
  ⟨rfl, rfl⟩

/-- Claim C10, counterexample: updating an existing device to "online" sets
connection_status and last_polled but leaves last_online as it was (here
None), although the claim says last_online is additionally stamped. -/
theorem update_status_last_online_counterexample :
    update_status [⟨7, "sw1", "offline", none, none⟩] 7 "online" 100 =
      ([⟨7, "sw1", "online", some 100, none⟩], true) ∧
    (⟨7, "sw1", "online", some 100, none⟩ : DeviceRow).last_online ≠ some 100 :=
  ⟨rfl, by decide⟩

/-- Claim C10 (amended): for an existing device, `update_status` sets
connection_status to the given status and stamps last_polled with the current
time, returning true — but it never writes last_online, for "online" or any
other status; when no device with the id exists it returns false and leaves
the table unchanged. -/
theorem update_status_behaviour (db : List DeviceRow) (device_id : Int)
    (status : String) (now : Nat) :
    (device_get_by_id db device_id = none →
      update_status db device_id status now = (db, false)) ∧
    (∀ r, device_get_by_id db device_id = some r →
      (update_status db device_id status now).2 = true ∧
      device_get_by_id (update_status db device_id status now).1 device_id =
        some { r with connection_status := status, last_polled := some now }) := by
  constructor
  · intro h
    simp [update_status, h]
  · intro r h
    refine ⟨by simp [update_status, h], ?_⟩
    have := device_get_updateFirst device_id
      (fun d => { d with connection_status := status, last_polled := some now })
      (fun d => rfl) db r h
    simp [update_status, h]
    exact this

/-- Witness for the amended C10 theorem on a one-row table. -/
theorem update_status_behaviour_witness :
    (update_status [⟨7, "sw1", "offline", none, none⟩] 7 "online" 100).2 = true ∧
    device_get_by_id
        (update_status [⟨7, "sw1", "offline", none, none⟩] 7 "online" 100).1 7 =
      some ⟨7, "sw1", "online", some 100, none⟩ :=
  (update_status_behaviour [⟨7, "sw1", "offline", none, none⟩] 7 "online" 100).2
    ⟨7, "sw1", "offline", none, none⟩ rfl

namespace NMS

/-- Externally visible actions of one device iteration of
`NMSOrchestrator.poll_cycle` (orchestrator.py 98-239), in order. -/
inductive Effect where
  | apiUpdateStatus (device_id : Int) (status : String)
  | dbUpdateStatus (device_id : Int) (status : String)
  | dbCreateAlarm (a : Alarm)
  | apiCreateAlarm (a : Alarm)
  | dbSaveInventory (device_id : Int)
  | dbSaveInterfaceMetric (device_id : Int) (interface_index : Int)
  | dbSaveHealthMetric (device_id : Int)
  | apiSendHealthMetrics (device_id : Int)
deriving DecidableEq, Repr

/-- Persist an alarm to the DB and mirror it to the API, with the device name
set first (orchestrator.py 147-152 and 201-204). -/
def alarmEffects (device_name : String) (alarms : List Alarm) : List Effect :=
  alarms.foldr
    (fun a acc =>
      Effect.dbCreateAlarm { a with device_name := some device_name } ::
      Effect.apiCreateAlarm { a with device_name := some device_name } :: acc) []

/-- The per-interface loop (orchestrator.py 143-166): evaluate each metric,
persist each emitted alarm (DB then API), then save the metric row. -/
def ifaceLoopEffects (eng : AlarmEngine) (device_name : String) :
    List InterfaceMetric → List Effect × AlarmEngine
  | [] => ([], eng)
  | m :: rest =>
    let r1 := evaluate_interface_metric eng m
    let r2 := ifaceLoopEffects r1.2 device_name rest
    (alarmEffects device_name r1.1 ++
       [Effect.dbSaveInterfaceMetric m.device_id m.interface_index] ++ r2.1, r2.2)

/-- The interface half of the cycle (orchestrator.py 105-177): when the poll
returned a non-empty list, mark online (API then DB), save inventory when due
and successful, then run the per-interface loop.  Returns (effects, engine,
device_is_online). -/
def ifaceBranch (eng : AlarmEngine) (device_id : Int) (device_name : String)
    (interfaces : List InterfaceMetric) (inventoryDue inventoryOk : Bool) :
    List Effect × AlarmEngine × Bool :=
  if interfaces ≠ [] then
    let inv :=
      if inventoryDue && inventoryOk then [Effect.dbSaveInventory device_id] else []
    let lp := ifaceLoopEffects eng device_name interfaces
    (Effect.apiUpdateStatus device_id "online" ::
       Effect.dbUpdateStatus device_id "online" :: inv ++ lp.1, lp.2, true)
  else ([], eng, false)

/-- The health half of the cycle (orchestrator.py 179-229): only when the
device row exists and the health poll yielded a metric, mark online, evaluate,
persist alarms, save the health row and push it to the API. -/
def healthBranch (cfg : AlarmConfig) (prior : AlarmEngine × Bool)
    (device_id : Int) (device_name : String)
    (health : Option DeviceHealthMetric) (deviceInDb : Bool) :
    List Effect × AlarmEngine × Bool :=
  if deviceInDb then
    match health with
    | some hm =>
      let r := evaluate_device_health cfg prior.1 hm
      (Effect.apiUpdateStatus device_id "online" ::
         Effect.dbUpdateStatus device_id "online" ::
         alarmEffects device_name r.1 ++
         [Effect.dbSaveHealthMetric device_id,
          Effect.apiSendHealthMetrics device_id], r.2, true)
    | none => ([], prior.1, prior.2)
  else ([], prior.1, prior.2)

/-- One device's iteration of `NMSOrchestrator.poll_cycle` (orchestrator.py
98-239), cut at the poller/repository/API interface: `interfaces` and
`health` are the poll results, `deviceInDb` whether `get_by_id` found the
device, `inventoryDue`/`inventoryOk` the inventory gating and outcome.  When
neither poll succeeded, the device is only marked offline (API then DB): the
offline branch makes no call into the Alarm Engine's reachability path, and
`device_unreachable`/`device_recovered` are invoked nowhere in the cycle. -/
def poll_cycle_device (cfg : AlarmConfig) (eng : AlarmEngine)
    (device_id : Int) (device_name : String)
    (interfaces : List InterfaceMetric) (health : Option DeviceHealthMetric)
    (deviceInDb inventoryDue inventoryOk : Bool) :
    List Effect × AlarmEngine :=
  let ir := ifaceBranch eng device_id device_name interfaces inventoryDue inventoryOk
  let hr := healthBranch cfg ir.2 device_id device_name health deviceInDb
  let offline :=
    if hr.2.2 then []
    else [Effect.apiUpdateStatus device_id "offline",
          Effect.dbUpdateStatus device_id "offline"]
  (ir.1 ++ hr.1 ++ offline, hr.2.1)

/-- Whether an alarm is one of the reachability pair. -/
def isReachabilityAlarm (a : Alarm) : Bool :=
  decide (a.type = AlarmType.device_unreachable)
    || decide (a.type = AlarmType.device_reachable)

/-- Whether an effect persists or mirrors a reachability alarm. -/
def isReachAlarmEffect : Effect → Bool
  | .dbCreateAlarm a => isReachabilityAlarm a
  | .apiCreateAlarm a => isReachabilityAlarm a
  | _ => false

lemma iface_alarm_types (eng : AlarmEngine) (m : InterfaceMetric) :
    ∀ a ∈ (evaluate_interface_metric eng m).1,
      a.type = AlarmType.port_down ∨ a.type = AlarmType.port_up := by
  intro a ha
  simp only [evaluate_interface_metric] at ha
  split_ifs at ha <;> simp at ha <;> simp [ha]

lemma health_alarm_types (cfg : AlarmConfig) (eng : AlarmEngine)
    (m : DeviceHealthMetric) :
    ∀ a ∈ (evaluate_device_health cfg eng m).1,
      a.type = AlarmType.cpu_high ∨ a.type = AlarmType.memory_high ∨
        a.type = AlarmType.temperature_high := by
  intro a ha
  simp only [evaluate_device_health, List.mem_append] at ha
  rcases ha with (ha | ha) | ha <;> split_ifs at ha <;> simp at ha <;> simp [ha]

lemma alarmEffects_no_reach (nm : String) (alarms : List Alarm)
    (h : ∀ a ∈ alarms, isReachabilityAlarm a = false) :
    ∀ e ∈ alarmEffects nm alarms, isReachAlarmEffect e = false := by
  induction alarms with
  | nil => intro e he; simp [alarmEffects] at he
  | cons a rest ih =>
    intro e he
    have ha : isReachabilityAlarm a = false := h a (by simp)
    have hrest : ∀ a2 ∈ rest, isReachabilityAlarm a2 = false :=
      fun a2 h2 => h a2 (by simp [h2])
    simp only [alarmEffects, List.foldr_cons, List.mem_cons] at he
    rcases he with he | he | he
    · subst he
      simp [isReachAlarmEffect, isReachabilityAlarm] at ha ⊢
      exact ha
    · subst he
      simp [isReachAlarmEffect, isReachabilityAlarm] at ha ⊢
      exact ha
    · exact ih hrest e he

lemma ifaceLoopEffects_no_reach (nm : String) :
    ∀ (obs : List InterfaceMetric) (eng : AlarmEngine),
      ∀ e ∈ (ifaceLoopEffects eng nm obs).1, isReachAlarmEffect e = false := by
  intro obs
  induction obs with
  | nil => intro eng e he; simp [ifaceLoopEffects] at he
  | cons m rest ih =>
    intro eng e he
    simp only [ifaceLoopEffects, List.append_assoc, List.mem_append] at he
    rcases he with he | he | he
    · refine alarmEffects_no_reach nm _ ?_ e he
      intro a ha
      rcases iface_alarm_types eng m a ha with ht | ht <;>
        simp [isReachabilityAlarm, ht]
    · simp at he; subst he; rfl
    · exact ih _ e he

lemma ifaceBranch_no_reach (eng : AlarmEngine) (d : Int) (nm : String)
    (ifs : List InterfaceMetric) (due ok : Bool) :
    ∀ e ∈ (ifaceBranch eng d nm ifs due ok).1, isReachAlarmEffect e = false := by
  intro e he
  by_cases hi : ifs = []
  · simp [ifaceBranch, hi] at he
  · have hl : (ifaceBranch eng d nm ifs due ok).1 =
        Effect.apiUpdateStatus d "online" :: Effect.dbUpdateStatus d "online" ::
        ((if due && ok then [Effect.dbSaveInventory d] else []) ++
          (ifaceLoopEffects eng nm ifs).1) := by
      simp [ifaceBranch, hi]
    rw [hl] at he
    simp only [List.mem_cons, List.mem_append] at he
    rcases he with he | he | he | he
    · subst he; rfl
    · subst he; rfl
    · split_ifs at he <;> simp at he
      subst he; rfl
    · exact ifaceLoopEffects_no_reach nm ifs eng e he

lemma healthBranch_no_reach (cfg : AlarmConfig) (prior : AlarmEngine × Bool)
    (d : Int) (nm : String) (health : Option DeviceHealthMetric) (dIn : Bool) :
    ∀ e ∈ (healthBranch cfg prior d nm health dIn).1, isReachAlarmEffect e = false := by
  intro e he
  cases dIn with
  | false => simp [healthBranch] at he
  | true =>
    cases health with
    | none => simp [healthBranch] at he
    | some hm =>
      have hl : (healthBranch cfg prior d nm (some hm) true).1 =
          Effect.apiUpdateStatus d "online" :: Effect.dbUpdateStatus d "online" ::
          (alarmEffects nm (evaluate_device_health cfg prior.1 hm).1 ++
            [Effect.dbSaveHealthMetric d, Effect.apiSendHealthMetrics d]) := by
        simp [healthBranch]
      rw [hl] at he
      simp only [List.mem_cons, List.mem_append] at he
      rcases he with he | he | he | he | he | he
      · subst he; rfl
      · subst he; rfl
      · refine alarmEffects_no_reach nm _ ?_ e he
        intro a ha
        rcases health_alarm_types cfg prior.1 hm a ha with ht | ht | ht <;>
          simp [isReachabilityAlarm, ht]
      · subst he; rfl
      · subst he; rfl
      · simp at he

end NMS

/-- A successful health observation that crosses no threshold. -/
def healthQuiet : DeviceHealthMetric := ⟨1, "dev1", 0, none, none, none, 5⟩

/-- Claim C1, counterexample: in a cycle where both polls fail, the
orchestrator only updates the device status to offline (API and DB) — no
device_unreachable alarm is created or mirrored, because poll_cycle never
calls the Alarm Engine's reachability path; and in a later successful cycle
only the online status update and metric saves happen — no device_reachable
recovery alarm is emitted either. -/
theorem poll_cycle_no_reachability_alarm_counterexample :
    (poll_cycle_device cfgDefault AlarmEngine.empty 1 "dev1" [] none
        true false false).1 =
      [Effect.apiUpdateStatus 1 "offline", Effect.dbUpdateStatus 1 "offline"] ∧
    (poll_cycle_device cfgDefault AlarmEngine.empty 1 "dev1" [] (some healthQuiet)
        true false false).1 =
      [Effect.apiUpdateStatus 1 "online", Effect.dbUpdateStatus 1 "online",
       Effect.dbSaveHealthMetric 1, Effect.apiSendHealthMetrics 1] ∧
    ((poll_cycle_device cfgDefault AlarmEngine.empty 1 "dev1" [] none
        true false false).1.filter isReachAlarmEffect) = [] := by
  refine ⟨by decide, by decide, by decide⟩

/-- Claim C1 (amended): when both the interface poll and the health poll fail
for a device, the orchestrator marks the device offline in the DB and via the
API — and nothing else: it does NOT emit device_unreachable, and in fact no
cycle, offline or online, ever produces a reachability alarm effect, because
poll_cycle never invokes the Alarm Engine's device_unreachable/
device_recovered path (recovery cycles likewise only update the online
status). -/
theorem poll_cycle_marks_offline_without_reachability_alarm
    (cfg : AlarmConfig) (eng eng2 : AlarmEngine) (device_id : Int)
    (device_name : String) (interfaces interfaces2 : List InterfaceMetric)
    (health health2 : Option DeviceHealthMetric)
    (deviceInDb inventoryDue inventoryOk dIn2 inv2 invOk2 : Bool)
    (hIf : interfaces = []) (hH : deviceInDb = true → health = none) :
    (poll_cycle_device cfg eng device_id device_name interfaces health
        deviceInDb inventoryDue inventoryOk).1 =
      [Effect.apiUpdateStatus device_id "offline",
       Effect.dbUpdateStatus device_id "offline"] ∧
    ∀ e ∈ (poll_cycle_device cfg eng2 device_id device_name interfaces2 health2
        dIn2 inv2 invOk2).1, isReachAlarmEffect e = false := by
  constructor
  · subst hIf
    cases deviceInDb with
    | false => simp [poll_cycle_device, ifaceBranch, healthBranch]
    | true =>
      have hh : health = none := hH rfl
      subst hh
      simp [poll_cycle_device, ifaceBranch, healthBranch]
  · intro e he
    simp only [poll_cycle_device, List.mem_append] at he
    rcases he with (he | he) | he
    · exact ifaceBranch_no_reach eng2 device_id device_name interfaces2 inv2 invOk2 e he
    · exact healthBranch_no_reach cfg _ device_id device_name health2 dIn2 e he
    · split_ifs at he
      · simp at he
      · simp at he
        rcases he with he | he <;> (subst he; rfl)

/-- Witness for the amended C1 theorem on a concrete failed cycle. -/
theorem poll_cycle_marks_offline_witness :
    (poll_cycle_device cfgDefault AlarmEngine.empty 1 "dev1" [] none
        true false false).1 =
      [Effect.apiUpdateStatus 1 "offline", Effect.dbUpdateStatus 1 "offline"] :=
  (poll_cycle_marks_offline_without_reachability_alarm cfgDefault
    AlarmEngine.empty AlarmEngine.empty 1 "dev1" [] [] none none
    true false false true false false rfl (fun _ => rfl)).1
